import Mathlib

/-!
Verification of the librarian reference-document archive manager.

The development shallowly embeds the Python source of the repository:

* `src/librarianlib/management.py` — `LibraryManager.search_docs` (matching,
  sorting, truncation, formatting), `LibraryManager.add`, `LibraryManager.rekey`,
  `LibraryManager.fix_link`, `LibraryManager.fix_links`, `_key_from_bibtex`;
* `src/librarianlib/command_interface.py` — `_sanitize_key`;
* `src/lib.py` — the bibtex field scanning loop of `do_grep`.

Python strings are embedded as `String` (compared as lists of code points,
which is how Python compares strings).  Python `sorted` is embedded as a
stable ascending insertion sort; `sorted(..., reverse=True)` is the reverse
of the stable ascending sort of the reversed input, which agrees with
Python stable descending sorting.  The filesystem touched by `add`, `rekey`
and the link subsystem is embedded as an association list from paths
(lists of components) to nodes (directory, bib file, pdf file, symlink).
Fallible Python code is embedded with `Except`; where an exception can be
raised after some filesystem mutations, the error value carries the
filesystem state at the moment of the raise, so that claims about what an
aborted operation leaves behind can be stated.

The bibliographic parser is external to the repository (the spec treats it
as a black box); a parsed bib file is embedded directly as a list of
records, and `entries_dict` as the Python dict view of that list (keyed by
the ID field, later records with an equal ID shadowing earlier ones, key
order being first-occurrence order).  The classes of the missing module
`librarianlib/document.py` are embedded only through what the claims need:
`DocumentPaths` is modelled from the spec (section 4.1 and the on-disk
layout of section 6), and `DocumentTemplate.matches` is an opaque function
parameter of the search model.
-/

/-! # Definitions -/

/-! ## Python string comparison

Python compares strings lexicographically on code points.  `pyStrLeB a b`
is the Python expression `a <= b` on the underlying lists of characters. -/

/-- Python string comparison `a <= b`, lexicographic on code points. -/
def pyStrLeB : List Char → List Char → Bool
  | [], _ => true
  | _ :: _, [] => false
  | x :: xs, y :: ys => decide (x < y) || (decide (x = y) && pyStrLeB xs ys)

/-! ## The sort phase of `LibraryManager.search_docs`

`management.py` lines 326-349.  The inner closure `_doc_sort_key` returns,
depending on the chosen sort key, either a Python string or a value with a
numeric order (a timestamp or the match count); `SortVal` is the sum of the
two shapes, ordered within each shape as Python orders those values. -/

/-- One archived document, as seen by the sorting code of `search_docs`:
`key` is the archive key, `title` and `year` are the raw string values of
`doc.bibtex` (the parsed bib file), and the two dates stand for the added
and accessed timestamps (embedded as naturals; only their order is used). -/
structure Doc where
  key : String
  title : String
  year : String
  addedDate : Nat
  accessedDate : Nat
deriving DecidableEq

/-- The type of values returned by `_doc_sort_key`: a Python string or a
numerically ordered value (timestamp or match count). -/
inductive SortVal where
  | num (n : Nat)
  | str (s : List Char)
deriving DecidableEq

/-- Comparison of sort key values, as Python would compare them.  The two
shapes are never mixed by a single `sorted` call (each sort key produces
values of one shape only); the cross cases are fixed arbitrarily so that
the relation is total and transitive. -/
def SortVal.leB : SortVal → SortVal → Bool
  | .num a, .num b => decide (a ≤ b)
  | .num _, .str _ => true
  | .str _, .num _ => false
  | .str a, .str b => pyStrLeB a b

/-- `_doc_sort_key` (`management.py` lines 328-343), applied to one
`(doc, count)` pair.  The final catch-all branch mirrors the fallthrough
`return doc.bibtex['year']` of the source. -/
def doc_sort_key (sort : String) (dc : Doc × Nat) : SortVal :=
  if sort = "key" then .str dc.1.key.data
  else if sort = "title" then .str dc.1.title.toLower.data
  else if sort = "year" then .str dc.1.year.data
  else if sort = "added" then .num dc.1.addedDate
  else if sort = "recent" then .num dc.1.accessedDate
  else if sort = "matches" then .num dc.2
  else .str dc.1.year.data

/-- Python `sorted(l, key=f, reverse=rev)`: a stable ascending sort for
`rev = false`; for `rev = true` the stable descending sort, which equals
reversing the stable ascending sort of the reversed input. -/
def pySorted (f : α → SortVal) (rev : Bool) (l : List α) : List α :=
  if rev then (List.insertionSort (fun a b => SortVal.leB (f a) (f b) = true) l.reverse).reverse
  else List.insertionSort (fun a b => SortVal.leB (f a) (f b) = true) l

/-- The sort step of `search_docs` (`management.py` lines 345-348): the
`reverse` flag is inverted for every sort key other than `key` and
`title`, then the matching `(doc, count)` pairs are sorted by
`_doc_sort_key`. -/
def sortDocs (sort : String) (reverse : Bool) (l : List (Doc × Nat)) : List (Doc × Nat) :=
  let reverse := if ¬ (sort = "key" ∨ sort = "title") then !reverse else reverse
  pySorted (doc_sort_key sort) reverse l

/-! ## `LibraryManager.search_docs` end to end

`management.py` lines 310-366.  The match step calls
`doc.matches(tmpl)` on every document; `DocumentTemplate.matches` lives in
the absent `document.py`, so it is taken as an opaque function argument
`matchFn` returning the `(result, count)` pair of the source.  Likewise the
per-document formatting `_summarize_doc` (terminal styling, line wrapping)
is taken as an opaque `summarize` argument. -/

/-- Python truthiness of the optional `sort` argument (`if sort:`):
`None` and the empty string are falsy. -/
def pyTruthyS : Option String → Bool
  | none => false
  | some s => decide (s ≠ "")

/-- Python truthiness of the optional `number` argument (`if number:`):
`None` and `0` are falsy. -/
def pyTruthyI : Option Int → Bool
  | none => false
  | some n => decide (n ≠ 0)

/-- Python list slicing `l[:n]` for an integer `n`: for nonnegative `n`
the first `n` elements, for negative `n` everything but the last `-n`
elements (clamped at zero). -/
def pySliceTo (n : Int) (l : List α) : List α :=
  if 0 ≤ n then l.take n.toNat else l.take (l.length - (-n).toNat)

/-- `LibraryManager.search_docs` (`management.py` lines 310-366).
Returns the formatted summary string, or the uncaught Python exception.
The source keeps two parallel lists `docs` and `counts`; they are embedded
as one list of pairs (`sorted(zip(docs, counts), ...)` zips them anyway).
The unpacking `docs, counts = tuple(zip(*docs_counts))` raises
`ValueError` when `docs_counts` is empty, because `tuple(zip())` is the
empty tuple.  The truncation `docs = docs[:number]` leaves `counts`
untouched; since the final loop runs over `zip(docs, counts)`, which stops
at the shorter list, truncating the pair list is equivalent. -/
def search_docs (matchFn : Doc → Bool × Nat) (summarize : Doc → Nat → Nat → String)
    (allDocs : List Doc) (sortOpt : Option String) (number : Option Int)
    (reverse : Bool) (verbosity : Nat) : Except String String :=
  let pairs := allDocs.filterMap (fun d =>
    let rc := matchFn d
    if rc.1 then some (d, rc.2) else none)
  let sortedRes : Except String (List (Doc × Nat)) :=
    if pyTruthyS sortOpt then
      let dc := sortDocs (sortOpt.getD "") reverse pairs
      if dc.isEmpty then
        .error "ValueError: not enough values to unpack (expected 2, got 0)"
      else .ok dc
    else .ok pairs
  match sortedRes with
  | .error e => .error e
  | .ok pairs₁ =>
    let pairs₂ := if pyTruthyI number then pySliceTo (number.getD 0) pairs₁ else pairs₁
    let summaries := pairs₂.map (fun dc => summarize dc.1 dc.2 verbosity)
    .ok (if summaries.isEmpty then ""
         else if verbosity > 0 then String.intercalate "\n\n" summaries
         else String.intercalate "\n" summaries)

/-! ## The filesystem model

An association list from absolute paths (lists of components, `[]` being
the root, which always exists and is a directory) to nodes.  `lookupFS`
returns the first binding of a path; the operations below keep paths
unique.  Symbolic references are followed one level by `resolve1`, enough
for every use the embedded code makes of `os.path.isdir`, `os.path.exists`
and `shutil.copy`. -/

/-- A parsed bibtex record: the ID field and the remaining fields. -/
structure Record where
  id : String
  fields : List (String × String)
deriving DecidableEq

/-- A filesystem node: directory, bib file (stored parsed), pdf file
(contents opaque), or symbolic reference storing its target path. -/
inductive Node where
  | dir
  | bib (records : List Record)
  | pdf (stamp : Nat)
  | link (target : List String)
deriving DecidableEq

/-- An absolute path, as a list of components; `[]` is the root. -/
abbrev FPath := List String

/-- The filesystem: bindings of absolute paths to nodes. -/
abbrev FS := List (FPath × Node)

/-- First binding of a path. -/
def lookupFS : FS → FPath → Option Node
  | [], _ => none
  | e :: fs, p => if e.1 = p then some e.2 else lookupFS fs p

/-- Follow at most one symbolic reference. -/
def resolve1 (fs : FS) (p : FPath) : Option Node :=
  match lookupFS fs p with
  | some (.link t) => lookupFS fs t
  | n => n

/-- `os.path.isdir` (follows symbolic references). -/
def isdir (fs : FS) (p : FPath) : Bool :=
  decide (resolve1 fs p = some .dir) || decide (p = [])

/-- `os.path.exists` (follows symbolic references; the root exists). -/
def pathExists (fs : FS) (p : FPath) : Bool :=
  (resolve1 fs p).isSome || decide (p = [])

/-- `os.path.islink` (does not follow). -/
def islink (fs : FS) (p : FPath) : Bool :=
  match lookupFS fs p with
  | some (.link _) => true
  | _ => false

/-- Remove every binding of a path (`os.remove` on an existing path). -/
def removePath : FS → FPath → FS
  | [], _ => []
  | e :: fs, p => if e.1 = p then removePath fs p else e :: removePath fs p

/-- Bind a path to a node, replacing any previous binding. -/
def putFile (fs : FS) (p : FPath) (n : Node) : FS :=
  removePath fs p ++ [(p, n)]

/-- The names of the entries directly inside a directory. -/
def listdir (fs : FS) (p : FPath) : List String :=
  fs.filterMap (fun e =>
    if e.1.length = p.length + 1 ∧ p.isPrefixOf e.1 then e.1.getLast? else none)

/-- `os.mkdir`: fails if the path already has a binding or its parent is
not an existing directory. -/
def os_mkdir (fs : FS) (p : FPath) : Except String FS :=
  if (lookupFS fs p).isSome then .error "FileExistsError"
  else if isdir fs p.dropLast then .ok (fs ++ [(p, .dir)])
  else .error "FileNotFoundError"

/-- `shutil.copy src dst`: if `dst` is an existing directory the copy goes
to `dst/basename(src)`; the source is read through one symbolic reference;
the destination parent must be an existing directory, any existing file
there is overwritten. -/
def shutil_copy (fs : FS) (src dst : FPath) : Except String FS :=
  let real_dst := if isdir fs dst then dst ++ [src.getLastD ""] else dst
  match resolve1 fs src with
  | none => .error "FileNotFoundError"
  | some .dir => .error "IsADirectoryError"
  | some (.link _) => .error "FileNotFoundError"
  | some n =>
    if isdir fs real_dst.dropLast then .ok (putFile fs real_dst n)
    else .error "FileNotFoundError"

/-- Rebase every binding under `src` to live under `dst`. -/
def moveTree (fs : FS) (src dst : FPath) : FS :=
  fs.map (fun e => if src.isPrefixOf e.1 then (dst ++ e.1.drop src.length, e.2) else e)

/-- `shutil.move src dst`: if `dst` is an existing directory the move goes
to `dst/basename(src)`.  `os.rename`, and the copy fallback `shutil.move`
uses when `os.rename` fails, both require the destination parent to be an
existing directory; when it is not, the source is left untouched and
`FileNotFoundError` is raised.  An existing file at the destination is
overwritten. -/
def shutil_move (fs : FS) (src dst : FPath) : Except String FS :=
  let real_dst := if isdir fs dst then dst ++ [src.getLastD ""] else dst
  if (lookupFS fs src).isSome then
    if isdir fs real_dst.dropLast then .ok (moveTree (removePath fs real_dst) src real_dst)
    else .error "FileNotFoundError"
  else .error "FileNotFoundError"

/-! ## Archive paths

Modelled from the spec: the `DocumentPaths` resolver lives in the absent
`librarianlib/document.py`.  Spec section 4.1 and the on-disk layout of
section 6 fix it: pure path construction mapping an archive root and a key
to the key directory, `key/key.pdf`, `key/key.bib` and the metadata
directory. -/

/-- Modelled from the spec: `DocumentPaths.key_path`. -/
def key_path (root : FPath) (key : String) : FPath := root ++ [key]

/-- Modelled from the spec: `DocumentPaths.pdf_path`. -/
def pdf_path (root : FPath) (key : String) : FPath := root ++ [key, key ++ ".pdf"]

/-- Modelled from the spec: `DocumentPaths.bib_path`. -/
def bib_path (root : FPath) (key : String) : FPath := root ++ [key, key ++ ".bib"]

/-- Modelled from the spec: `DocumentPaths.metadata_path` (the optional
metadata subdirectory of the key directory). -/
def metadata_path (root : FPath) (key : String) : FPath := root ++ [key, ".meta"]

/-! ## `_key_from_bibtex`, `LibraryManager.add`, `LibraryManager.rekey` -/

/-- The key list of the Python dict `bib_info.entries_dict`: the record
IDs in first-occurrence order, a later record with an equal ID shadowing
an earlier one rather than adding a key. -/
def pyDictKeys (l : List String) : List String :=
  l.foldl (fun acc k => if k ∈ acc then acc else acc ++ [k]) []

/-- `_key_from_bibtex` (`management.py` lines 27-36) applied to the parsed
records: raises when `entries_dict` has more than one key, then returns
`keys[0]` (an `IndexError` when the file has no record at all). -/
def key_from_records (records : List Record) : Except String String :=
  let keys := pyDictKeys (records.map Record.id)
  if keys.length > 1 then .error "More than one entry in bibtex file."
  else
    match keys with
    | [] => .error "IndexError: list index out of range"
    | k :: _ => .ok k

/-- `LibraryManager.add` (`management.py` lines 161-176).  Reads the bib
source, derives the key, rejects an existing key (`has_key` is
`os.path.isdir` of the key directory), then creates the key directory and
the metadata directory and copies the two source files in.  On success
returns the new filesystem and the key; on an exception returns the
filesystem as it stood when the exception was raised. -/
def add (fs : FS) (root : FPath) (pdf_src bib_src : FPath) :
    Except (FS × String) (FS × String) :=
  match resolve1 fs bib_src with
  | some (.bib records) =>
    match key_from_records records with
    | .error e => .error (fs, e)
    | .ok key =>
      if isdir fs (key_path root key) then
        .error (fs, "Archive already contains key " ++ key ++ ". Aborting.")
      else
        match os_mkdir fs (key_path root key) with
        | .error e => .error (fs, e)
        | .ok fs₁ =>
          match os_mkdir fs₁ (metadata_path root key) with
          | .error e => .error (fs₁, e)
          | .ok fs₂ =>
            match shutil_copy fs₂ pdf_src (pdf_path root key) with
            | .error e => .error (fs₂, e)
            | .ok fs₃ =>
              match shutil_copy fs₃ bib_src (bib_path root key) with
              | .error e => .error (fs₃, e)
              | .ok fs₄ => .ok (fs₄, key)
  | _ => .error (fs, "FileNotFoundError")

/-- `LibraryManager.rekey` (`management.py` lines 178-202).  Checks the
old key exists (`get_doc`), derives the new key from the bib file when
none is supplied, rejects an existing new key, then moves the pdf file,
the bib file and the key directory, and finally re-opens the moved bib
file in `r+` mode, parses it, sets the ID of the first record, and writes
the serialized records back; since the read left the file position at the
end of the file, that write appends the rewritten records after the
original contents instead of replacing them. -/
def rekey (fs : FS) (root : FPath) (old_key : String) (newKeyOpt : Option String) :
    Except (FS × String) FS :=
  if ¬ isdir fs (key_path root old_key) then
    .error (fs, "Key " ++ old_key ++ " not found in archive.")
  else
    let newKeyRes : Except String String :=
      match newKeyOpt with
      | some k => .ok k
      | none =>
        match resolve1 fs (bib_path root old_key) with
        | some (.bib records) => key_from_records records
        | _ => .error "FileNotFoundError"
    match newKeyRes with
    | .error e => .error (fs, e)
    | .ok new_key =>
      if isdir fs (key_path root new_key) then
        .error (fs, "Archive already contains key " ++ new_key ++ ". Aborting.")
      else
        match shutil_move fs (pdf_path root old_key) (pdf_path root new_key) with
        | .error e => .error (fs, e)
        | .ok fs₁ =>
          match shutil_move fs₁ (bib_path root old_key) (bib_path root new_key) with
          | .error e => .error (fs₁, e)
          | .ok fs₂ =>
            match shutil_move fs₂ (key_path root old_key) (key_path root new_key) with
            | .error e => .error (fs₂, e)
            | .ok fs₃ =>
              match lookupFS fs₃ (bib_path root new_key) with
              | some (.bib rs) =>
                match rs with
                | [] => .error (fs₃, "IndexError: list index out of range")
                | r₀ :: rest =>
                  .ok (putFile fs₃ (bib_path root new_key)
                        (.bib (rs ++ ({ r₀ with id := new_key } :: rest))))
              | _ => .error (fs₃, "FileNotFoundError")

/-! ## The link subsystem

`management.py` lines 204-240.  Python resolves a relative path against
the current working directory; a path argument is embedded as `PyPath`,
its absolute form obtained with `resolveP`. -/

/-- A path argument as the Python code receives it: absolute, or relative
to the current working directory. -/
structure PyPath where
  absolute : Bool
  comps : List String
deriving DecidableEq

/-- Resolve a path argument against the current working directory. -/
def resolveP (cwd : FPath) (p : PyPath) : FPath :=
  if p.absolute then p.comps else cwd ++ p.comps

/-- `LibraryManager.fix_link` (`management.py` lines 221-234).  Raises
when the argument is not a symbolic reference; takes the basename of the
current target as the key; when the key is not in the archive, prints a
report and returns (the `Option String` result carries the report);
otherwise removes the reference and recreates it via `LibraryManager.link`
(lines 204-219): destination already occupied raises, then `os.symlink`
(which needs the destination parent directory) creates the new reference
to the key directory. -/
def fix_link (root cwd : FPath) (fs : FS) (arg : PyPath) :
    Except (FS × String) (FS × Option String) :=
  let lp := resolveP cwd arg
  match lookupFS fs lp with
  | some (.link target) =>
    let key := target.getLastD ""
    if isdir fs (root ++ [key]) then
      let fs₁ := removePath fs lp
      let dest := resolveP cwd arg
      if pathExists fs₁ dest then
        .error (fs₁, "Symlink already exists. Aborting.")
      else if isdir fs₁ dest.dropLast then
        .ok (fs₁ ++ [(dest, .link (root ++ [key]))], none)
      else .error (fs₁, "FileNotFoundError")
    else .ok (fs, some "does not point to a document in the archive.")
  | _ => .error (fs, "LibraryException: is not a symlink.")

/-- The loop of `fix_links`: `for link in filter(os.path.islink, files)`.
The filter is lazy, so each name is tested against the filesystem as it
stands when the loop reaches it; the names are bare entries of the listed
directory, so both the `islink` test and the recursive operations resolve
them against the current working directory. -/
def fix_links_loop (root cwd : FPath) : FS → List String → Except (FS × String) (FS × List String)
  | fs, [] => .ok (fs, [])
  | fs, n :: rest =>
    if islink fs (cwd ++ [n]) then
      match fix_link root cwd fs ⟨false, [n]⟩ with
      | .error e => .error e
      | .ok (fs₁, msg) =>
        match fix_links_loop root cwd fs₁ rest with
        | .error e => .error e
        | .ok (fs₂, msgs) => .ok (fs₂, msg.toList ++ msgs)
    else fix_links_loop root cwd fs rest

/-- `LibraryManager.fix_links` (`management.py` lines 236-240): lists the
directory, then runs `fix_link` on every listed name that
`os.path.islink` accepts — the bare names being resolved against the
current working directory, not against the listed directory. -/
def fix_links (root cwd : FPath) (fs : FS) (dirArg : PyPath) :
    Except (FS × String) (FS × List String) :=
  match lookupFS fs (resolveP cwd dirArg) with
  | some .dir => fix_links_loop root cwd fs (listdir fs (resolveP cwd dirArg))
  | _ => .error (fs, "FileNotFoundError")

/-! ## `_sanitize_key` (`command_interface.py` lines 41-51)

Called by the `open`, `link`, `bookmark` and `rekey` commands on the
user-supplied key.  `key[-1]` raises `IndexError` on an empty string;
`os.path.sep` is `/`; `key.split('/')[-1]` is total because `str.split`
with an explicit separator never returns an empty list. -/

/-- Python `str.split` with a one-character separator: `pySplit sep s`
never returns an empty list, splitting the empty string gives `[[]]`. -/
def pySplit (sep : Char) : List Char → List (List Char)
  | [] => [[]]
  | c :: cs =>
    match pySplit sep cs with
    | [] => [[c]]
    | p :: ps => if c = sep then [] :: p :: ps else (c :: p) :: ps

/-- `_sanitize_key` on a present (non-`None`) key argument: `key[-1]`
raises on the empty string, one trailing `/` is dropped, and the last
piece of the split on `/` is returned. -/
def sanitize_key (key : String) : Except String String :=
  if key.data = [] then .error "IndexError: string index out of range"
  else
    let k₁ := if key.data.getLast? = some '/' then key.data.dropLast else key.data
    .ok ⟨(pySplit '/' k₁).getLastD []⟩

/-! ## The bibtex scanning loop of `do_grep` (`lib.py` lines 113-133)

Also the body of `LibraryManager.search_bibtex` (`management.py` lines
284-308).  The regex is opaque here: `findall value` stands for
`len(regex.findall(value))`. -/

/-- The per-record match count of the bib scanning loop: every field of
the record is scanned except the `ID` field, which is skipped. -/
def fieldMatchCount (findall : String → Nat) (info : List (String × String)) : Nat :=
  info.foldl (fun count fv => if fv.1 = "ID" then count else count + findall fv.2) 0

/-! ## Concrete test fixtures -/

/-- An archive holding the single key `a`, with its pdf and bib file. -/
def fsArchiveA : FS :=
  [(["lib"], .dir), (["lib", "archive"], .dir),
   (["lib", "archive", "a"], .dir),
   (["lib", "archive", "a", "a.pdf"], .pdf 1),
   (["lib", "archive", "a", "a.bib"], .bib [⟨"a", [("title", "T")]⟩])]

/-- An empty archive plus a pdf source and a bib source holding two
records that share the ID `k`. -/
def fsAddDup : FS :=
  [(["lib"], .dir), (["lib", "archive"], .dir), (["tmp"], .dir),
   (["tmp", "x.pdf"], .pdf 7),
   (["tmp", "x.bib"], .bib [⟨"k", [("title", "T1")]⟩, ⟨"k", [("title", "T2")]⟩])]

/-- An empty archive plus a pdf source and a bib source holding two
records with the distinct IDs `a` and `b`. -/
def fsAddTwo : FS :=
  [(["lib"], .dir), (["lib", "archive"], .dir), (["tmp"], .dir),
   (["tmp", "x.pdf"], .pdf 7),
   (["tmp", "x.bib"], .bib [⟨"a", []⟩, ⟨"b", []⟩])]

/-- A working directory `/c`, a directory `/d` holding one symbolic
reference `s` whose target key `k` is not in the (empty) archive. -/
def fsLinkDir : FS :=
  [(["c"], .dir), (["d"], .dir), (["d", "s"], .link ["x", "k"]),
   (["lib"], .dir), (["lib", "archive"], .dir)]

/-- A home directory holding a valid symbolic reference `paper` to the
archive key `k`. -/
def fsValidLink : FS :=
  [(["home"], .dir),
   (["home", "paper"], .link ["lib", "archive", "k"]),
   (["lib", "archive", "k"], .dir)]

/-! # Theorems -/

/-! ## Order lemmas -/

theorem pyStrLeB_total (a b : List Char) : pyStrLeB a b = true ∨ pyStrLeB b a = true := by
  induction a generalizing b with
  | nil => left; rfl
  | cons x xs ih =>
    cases b with
    | nil => right; rfl
    | cons y ys =>
      simp only [pyStrLeB, Bool.or_eq_true, Bool.and_eq_true, decide_eq_true_eq]
      rcases lt_trichotomy x y with h | h | h
      · exact Or.inl (Or.inl h)
      · rcases ih ys with h' | h'
        · exact Or.inl (Or.inr ⟨h, h'⟩)
        · exact Or.inr (Or.inr ⟨h.symm, h'⟩)
      · exact Or.inr (Or.inl h)

theorem pyStrLeB_trans (a b c : List Char) (hab : pyStrLeB a b = true)
    (hbc : pyStrLeB b c = true) : pyStrLeB a c = true := by
  induction a generalizing b c with
  | nil => rfl
  | cons x xs ih =>
    cases b with
    | nil => simp [pyStrLeB] at hab
    | cons y ys =>
      cases c with
      | nil => simp [pyStrLeB] at hbc
      | cons z zs =>
        simp only [pyStrLeB, Bool.or_eq_true, Bool.and_eq_true, decide_eq_true_eq] at *
        rcases hab with h₁ | ⟨h₁, h₁'⟩
        · rcases hbc with h₂ | ⟨h₂, h₂'⟩
          · exact Or.inl (lt_trans h₁ h₂)
          · exact Or.inl (h₂ ▸ h₁)
        · rcases hbc with h₂ | ⟨h₂, h₂'⟩
          · exact Or.inl (h₁ ▸ h₂)
          · exact Or.inr ⟨h₁.trans h₂, ih ys zs h₁' h₂'⟩

theorem SortVal.leB_total (a b : SortVal) : SortVal.leB a b = true ∨ SortVal.leB b a = true := by
  cases a <;> cases b <;> simp only [SortVal.leB, decide_eq_true_eq]
  · exact Nat.le_total _ _
  · exact Or.inl trivial
  · exact Or.inr trivial
  · exact pyStrLeB_total _ _

theorem SortVal.leB_trans (a b c : SortVal) (hab : SortVal.leB a b = true)
    (hbc : SortVal.leB b c = true) : SortVal.leB a c = true := by
  cases a <;> cases b <;> cases c <;>
    simp only [SortVal.leB, decide_eq_true_eq] at * <;> try trivial
  · exact Nat.le_trans hab hbc
  · exact pyStrLeB_trans _ _ _ hab hbc

theorem pySorted_sorted_asc (f : α → SortVal) (l : List α) :
    List.Sorted (fun a b => SortVal.leB (f a) (f b) = true) (pySorted f false l) := by
  letI : IsTotal α (fun a b => SortVal.leB (f a) (f b) = true) :=
    ⟨fun a b => SortVal.leB_total (f a) (f b)⟩
  letI : IsTrans α (fun a b => SortVal.leB (f a) (f b) = true) :=
    ⟨fun a b c => SortVal.leB_trans (f a) (f b) (f c)⟩
  simpa [pySorted] using
    List.sorted_insertionSort (fun a b => SortVal.leB (f a) (f b) = true) l

theorem pySorted_sorted_desc (f : α → SortVal) (l : List α) :
    List.Sorted (fun a b => SortVal.leB (f b) (f a) = true) (pySorted f true l) := by
  letI : IsTotal α (fun a b => SortVal.leB (f a) (f b) = true) :=
    ⟨fun a b => SortVal.leB_total (f a) (f b)⟩
  letI : IsTrans α (fun a b => SortVal.leB (f a) (f b) = true) :=
    ⟨fun a b c => SortVal.leB_trans (f a) (f b) (f c)⟩
  have h := List.sorted_insertionSort (fun a b => SortVal.leB (f a) (f b) = true) l.reverse
  simp only [pySorted, if_pos rfl]
  exact (List.pairwise_reverse).mpr h

/-! ## Association list lemmas -/

theorem lookupFS_removePath_self (fs : FS) (p : FPath) :
    lookupFS (removePath fs p) p = none := by
  induction fs with
  | nil => rfl
  | cons e fs ih =>
    by_cases h : e.1 = p
    · rw [removePath, if_pos h]; exact ih
    · rw [removePath, if_neg h, lookupFS, if_neg h]; exact ih

theorem lookupFS_removePath_ne (fs : FS) (p q : FPath) (h : q ≠ p) :
    lookupFS (removePath fs p) q = lookupFS fs q := by
  induction fs with
  | nil => rfl
  | cons e fs ih =>
    by_cases he : e.1 = p
    · have heq : e.1 ≠ q := fun hq => h (hq ▸ he ▸ rfl)
      rw [removePath, if_pos he, lookupFS, if_neg heq]; exact ih
    · rw [removePath, if_neg he, lookupFS, lookupFS]
      by_cases heq : e.1 = q
      · rw [if_pos heq, if_pos heq]
      · rw [if_neg heq, if_neg heq]; exact ih

theorem lookupFS_append (fs₁ fs₂ : FS) (p : FPath) :
    lookupFS (fs₁ ++ fs₂) p =
      match lookupFS fs₁ p with
      | some n => some n
      | none => lookupFS fs₂ p := by
  induction fs₁ with
  | nil => rfl
  | cons e fs ih =>
    by_cases h : e.1 = p <;> simp [lookupFS, h, ih]

theorem removePath_append (fs₁ fs₂ : FS) (p : FPath) :
    removePath (fs₁ ++ fs₂) p = removePath fs₁ p ++ removePath fs₂ p := by
  induction fs₁ with
  | nil => rfl
  | cons e fs ih =>
    by_cases h : e.1 = p
    · rw [List.cons_append, removePath, if_pos h, removePath, if_pos h]; exact ih
    · rw [List.cons_append, removePath, if_neg h, removePath, if_neg h, List.cons_append, ih]

theorem removePath_idem (fs : FS) (p : FPath) :
    removePath (removePath fs p) p = removePath fs p := by
  induction fs with
  | nil => rfl
  | cons e fs ih =>
    by_cases h : e.1 = p
    · rw [removePath, if_pos h]; exact ih
    · rw [removePath, if_neg h, removePath, if_neg h, ih]

/-! ## C1: sort direction policy of `search_docs` -/

/-- C1 (amended): with `sortKey=year` and `reverse=false` the results are
in descending lexicographic order of the year string (newest first only
when the year strings have equal length, for instance all four-digit
years); with `sortKey=title` and `reverse=false` they are in ascending
order of the lowercased title, and with `sortKey=key` in ascending key
order; for the sort keys other than `key` and `title` (year, added,
accessed, match count) the effect of the `reverse` flag is inverted
relative to the `key`/`title` case, descending under `reverse=false` and
ascending under `reverse=true`. -/
theorem search_docs_sort_direction (l : List (Doc × Nat)) :
    List.Sorted (fun a b : Doc × Nat => pyStrLeB b.1.year.data a.1.year.data = true)
      (sortDocs "year" false l) ∧
    List.Sorted (fun a b : Doc × Nat => pyStrLeB a.1.year.data b.1.year.data = true)
      (sortDocs "year" true l) ∧
    List.Sorted
      (fun a b : Doc × Nat => pyStrLeB a.1.title.toLower.data b.1.title.toLower.data = true)
      (sortDocs "title" false l) ∧
    List.Sorted (fun a b : Doc × Nat => pyStrLeB a.1.key.data b.1.key.data = true)
      (sortDocs "key" false l) ∧
    List.Sorted (fun a b : Doc × Nat => pyStrLeB b.1.key.data a.1.key.data = true)
      (sortDocs "key" true l) ∧
    List.Sorted (fun a b : Doc × Nat => b.2 ≤ a.2) (sortDocs "matches" false l) ∧
    List.Sorted (fun a b : Doc × Nat => a.2 ≤ b.2) (sortDocs "matches" true l) ∧
    List.Sorted (fun a b : Doc × Nat => b.1.addedDate ≤ a.1.addedDate)
      (sortDocs "added" false l) ∧
    List.Sorted (fun a b : Doc × Nat => b.1.accessedDate ≤ a.1.accessedDate)
      (sortDocs "recent" false l) := by
  refine ⟨?_, ?_, ?_, ?_, ?_, ?_, ?_, ?_, ?_⟩
  · exact pySorted_sorted_desc (doc_sort_key "year") l
  · exact pySorted_sorted_asc (doc_sort_key "year") l
  · exact pySorted_sorted_asc (doc_sort_key "title") l
  · exact pySorted_sorted_asc (doc_sort_key "key") l
  · exact pySorted_sorted_desc (doc_sort_key "key") l
  · exact List.Pairwise.imp (fun h => of_decide_eq_true h)
      (pySorted_sorted_desc (doc_sort_key "matches") l)
  · exact List.Pairwise.imp (fun h => of_decide_eq_true h)
      (pySorted_sorted_asc (doc_sort_key "matches") l)
  · exact List.Pairwise.imp (fun h => of_decide_eq_true h)
      (pySorted_sorted_desc (doc_sort_key "added") l)
  · exact List.Pairwise.imp (fun h => of_decide_eq_true h)
      (pySorted_sorted_desc (doc_sort_key "recent") l)

/-- C1 (counterexample): the claim says `sortKey=year` with
`reverse=false` yields newest first; with the year strings `99` and
`100` the code yields the lexicographically greater `99` first, although
`100` is the newer year. -/
theorem search_docs_year_not_newest_first :
    sortDocs "year" false [(⟨"p", "P", "99", 0, 0⟩, 0), (⟨"q", "Q", "100", 0, 0⟩, 0)]
      = [(⟨"p", "P", "99", 0, 0⟩, 0), (⟨"q", "Q", "100", 0, 0⟩, 0)] ∧
    sortDocs "year" false [(⟨"p", "P", "99", 0, 0⟩, 0), (⟨"q", "Q", "100", 0, 0⟩, 0)]
      ≠ [(⟨"q", "Q", "100", 0, 0⟩, 0), (⟨"p", "P", "99", 0, 0⟩, 0)] ∧
    (99 : Nat) < 100 := by
  refine ⟨by decide, by decide, by decide⟩

/-! ## C5: the `year` sort key compares strings, not numbers -/

/-- C5 (amended): with `sortKey=year` the sort key is the raw year
string of the bib record and documents are compared lexicographically on
it; there is no numeric comparison (so an ascending sort, obtained with
`reverse=true`, puts year `1000` before year `999`). -/
theorem year_sort_is_lexicographic (l : List (Doc × Nat)) :
    sortDocs "year" true l
      = pySorted (fun dc : Doc × Nat => SortVal.str dc.1.year.data) false l ∧
    sortDocs "year" false l
      = pySorted (fun dc : Doc × Nat => SortVal.str dc.1.year.data) true l ∧
    List.Sorted (fun a b : Doc × Nat => pyStrLeB a.1.year.data b.1.year.data = true)
      (sortDocs "year" true l) := by
  refine ⟨rfl, rfl, pySorted_sorted_asc (doc_sort_key "year") l⟩

/-- C5 (counterexample): the claim says year `999` sorts before year
`1000` in ascending order; the ascending sort of the code (the
`reverse=true` call, the flag being inverted for `year`) puts `1000`
first, because the comparison is lexicographic on strings. -/
theorem year_sort_lexicographic_cx :
    sortDocs "year" true [(⟨"a", "A", "999", 0, 0⟩, 0), (⟨"b", "B", "1000", 0, 0⟩, 0)]
      = [(⟨"b", "B", "1000", 0, 0⟩, 0), (⟨"a", "A", "999", 0, 0⟩, 0)] ∧
    sortDocs "year" true [(⟨"a", "A", "999", 0, 0⟩, 0), (⟨"b", "B", "1000", 0, 0⟩, 0)]
      ≠ [(⟨"a", "A", "999", 0, 0⟩, 0), (⟨"b", "B", "1000", 0, 0⟩, 0)] := by
  refine ⟨by decide, by decide⟩

/-! ## C4: empty result sets -/

/-- C4: the claim says an empty result set is never an error, including
when a sort key is supplied.  Without a sort key an empty match set does
produce the empty summary, but with `sortKey=year` over an empty archive
`search_docs` raises `ValueError`: `docs_counts` is empty, `zip()` of
nothing is the empty tuple, and unpacking it into `docs, counts`
fails. -/
theorem search_docs_empty_sort_raises :
    search_docs (fun _ => (true, 0)) (fun _ _ _ => "") [] (some "year") none false 0
      = .error "ValueError: not enough values to unpack (expected 2, got 0)" ∧
    search_docs (fun _ => (true, 0)) (fun _ _ _ => "") [] none none false 0 = .ok "" :=
  ⟨rfl, rfl⟩

/-! ## C10: a result limit of zero -/

/-- C10: calling `search_docs` with a result limit of `0` returns exactly
what calling it with no limit returns, for every match function,
formatter, document list, sort option, reverse flag and verbosity: `0`
is falsy in Python, so `if number:` skips the truncation. -/
theorem limit_zero_returns_all (matchFn : Doc → Bool × Nat)
    (summarize : Doc → Nat → Nat → String) (allDocs : List Doc)
    (sortOpt : Option String) (reverse : Bool) (verbosity : Nat) :
    search_docs matchFn summarize allDocs sortOpt (some 0) reverse verbosity
      = search_docs matchFn summarize allDocs sortOpt none reverse verbosity := rfl

/-! ## C6: the ID field is excluded from bib scanning -/

/-- C6: the bib scanning loop skips the `ID` field, so the match count of
a record equals the match count of the record with every `ID` field
removed — occurrences of the pattern inside the identifier contribute
nothing, whatever the matcher counts on the other fields; prepending an
`ID` field with any value leaves the count unchanged. -/
theorem bib_scan_skips_id_field (findall : String → Nat) (info : List (String × String)) :
    fieldMatchCount findall info
      = fieldMatchCount findall (info.filter (fun fv => decide (fv.1 ≠ "ID"))) ∧
    (∀ v : String, fieldMatchCount findall (("ID", v) :: info)
      = fieldMatchCount findall info) := by
  constructor
  · show List.foldl _ 0 info = List.foldl _ 0 _
    generalize 0 = acc
    induction info generalizing acc with
    | nil => rfl
    | cons fv rest ih =>
      by_cases h : fv.1 = "ID"
      · rw [List.filter_cons, if_neg (by simp [h])]
        simp only [List.foldl, if_pos h]
        exact ih acc
      · rw [List.filter_cons, if_pos (by simp [h])]
        simp only [List.foldl, if_neg h]
        exact ih _
  · intro v; rfl

/-! ## C9: `_sanitize_key` -/

/-- C9 (amended): for every non-empty user-supplied key the sanitizer
succeeds, stripping one trailing `/` and keeping only the final path
component, so the nested path `a/b/` is treated as the key `b`; on the
empty key the code raises `IndexError` instead. -/
theorem sanitize_key_nonempty :
    (∀ key : String, key ≠ "" → (sanitize_key key).isOk = true) ∧
    sanitize_key "a/b/" = .ok "b" ∧
    sanitize_key "a/b" = .ok "b" ∧
    sanitize_key "b/" = .ok "b" ∧
    sanitize_key "b" = .ok "b" := by
  refine ⟨?_, rfl, rfl, rfl, rfl⟩
  intro key h
  have hd : ¬ key.data = [] := by
    intro h0
    exact h (by cases key with | mk data => cases h0; rfl)
  rw [sanitize_key, if_neg hd]
  rfl

/-- C9 (witness for the amended claim): the nonempty-key case applied at
the concrete key `a/b/`. -/
theorem sanitize_key_nonempty_witness : (sanitize_key "a/b/").isOk = true :=
  sanitize_key_nonempty.1 "a/b/" (by decide)

/-- C9 (counterexample): the claim covers every user-supplied key, but on
the empty key `key[-1]` raises `IndexError`, so no key is produced at
all. -/
theorem sanitize_key_empty_cx :
    sanitize_key "" = .error "IndexError: string index out of range" := rfl

/-! ## C2: `rekey` -/

/-- C2: the claim says a successful `rekey(k, k2)` leaves the bib
identifier reading `k2` and removes the old key directory.  On the
archive holding the key `a`, `rekey a b` instead raises
`FileNotFoundError` at the very first file move: `a/a.pdf` is moved to
`b/b.pdf` before the directory `b` exists, so no rekey succeeds; the
archive is unchanged, the old key directory still exists and the bib
file still carries the identifier `a`.  (Had the moves succeeded, the
final rewrite would still not leave the identifier reading `k2`: the
`r+` write appends a second copy of the records after the original file
contents instead of replacing them.) -/
theorem rekey_first_move_fails :
    rekey fsArchiveA ["lib", "archive"] "a" (some "b")
      = .error (fsArchiveA, "FileNotFoundError") ∧
    isdir fsArchiveA (key_path ["lib", "archive"] "a") = true ∧
    lookupFS fsArchiveA (bib_path ["lib", "archive"] "a")
      = some (.bib [⟨"a", [("title", "T")]⟩]) :=
  ⟨rfl, rfl, rfl⟩

/-! ## C3: `add` and multi-record bib sources -/

/-- C3 (counterexample): the claim says every bib source with more than
one record makes `add` fail and leaves the archive unchanged; but two
records sharing the ID `k` collapse to a single `entries_dict` key, so
`add` succeeds and creates the key directory `k`. -/
theorem add_duplicate_id_records_cx :
    lookupFS fsAddDup ["tmp", "x.bib"]
      = some (.bib [⟨"k", [("title", "T1")]⟩, ⟨"k", [("title", "T2")]⟩]) ∧
    (add fsAddDup ["lib", "archive"] ["tmp", "x.pdf"] ["tmp", "x.bib"]).toOption.map
        (fun r => r.2) = some "k" ∧
    (add fsAddDup ["lib", "archive"] ["tmp", "x.pdf"] ["tmp", "x.bib"]).toOption.map
        (fun r => isdir r.1 (key_path ["lib", "archive"] "k")) = some true :=
  ⟨rfl, rfl, rfl⟩

/-- C3 (amended): for every bib source whose records carry more than one
distinct ID, `add` fails with the multiple-entry error before touching
the archive, which is returned unchanged. -/
theorem add_multiple_distinct_keys_fails (fs : FS) (root : FPath)
    (pdf_src bib_src : FPath) (records : List Record)
    (hbib : resolve1 fs bib_src = some (.bib records))
    (hmany : (pyDictKeys (records.map Record.id)).length > 1) :
    add fs root pdf_src bib_src = .error (fs, "More than one entry in bibtex file.") := by
  have hk : key_from_records records = .error "More than one entry in bibtex file." := by
    simp only [key_from_records]
    rw [if_pos hmany]
  simp only [add, hbib, hk]

/-- C3 (witness for the amended claim): a bib source with the two
distinct IDs `a` and `b` makes `add` fail with the multiple-entry error
and leaves the filesystem unchanged. -/
theorem add_multiple_distinct_keys_fails_witness :
    add fsAddTwo ["lib", "archive"] ["tmp", "x.pdf"] ["tmp", "x.bib"]
      = .error (fsAddTwo, "More than one entry in bibtex file.") :=
  add_multiple_distinct_keys_fails fsAddTwo ["lib", "archive"] ["tmp", "x.pdf"]
    ["tmp", "x.bib"] [⟨"a", []⟩, ⟨"b", []⟩] rfl (by decide)

/-! ## C7: `fix_links` -/

/-- C7: the claim says `fix_links(directory)` applies `fix_link` to every
symbolic reference directly inside the directory, continuing past and
reporting each per-link failure.  The code filters the bare listed names
through `os.path.islink`, which resolves them against the current working
directory: with working directory `/c` and directory `/d` holding the
broken symbolic reference `s`, `fix_links` touches nothing and reports
nothing, although `/d/s` is a symbolic reference whose key `k` is absent
from the archive and should have been reported. -/
theorem fix_links_misses_directory_links :
    fix_links ["lib", "archive"] ["c"] fsLinkDir ⟨true, ["d"]⟩ = .ok (fsLinkDir, []) ∧
    islink fsLinkDir ["d", "s"] = true ∧
    isdir fsLinkDir ["lib", "archive", "k"] = false :=
  ⟨rfl, rfl, rfl⟩

/-! ## C8: `fix_link` is idempotent on valid links -/

theorem removePath_single_self (p : FPath) (n : Node) : removePath [(p, n)] p = [] := by
  simp [removePath]

/-- C8: for every link whose target key is present in the archive,
`fix_link` succeeds with no report, repointing the link at the key
directory; applying it again succeeds with no report and leaves the very
same filesystem, so the link target is the same both times and no error
is raised. -/
theorem fix_link_idempotent_on_valid (root cwd : FPath) (fs : FS) (arg : PyPath)
    (t : FPath) (k : String)
    (hL : lookupFS fs (resolveP cwd arg) = some (.link t))
    (hk : t.getLastD "" = k)
    (hdir : lookupFS fs (root ++ [k]) = some .dir)
    (hparent : lookupFS fs (resolveP cwd arg).dropLast = some .dir) :
    ∃ fs₁ : FS,
      fix_link root cwd fs arg = .ok (fs₁, none) ∧
      fix_link root cwd fs₁ arg = .ok (fs₁, none) ∧
      lookupFS fs₁ (resolveP cwd arg) = some (.link (root ++ [k])) := by
  set lp := resolveP cwd arg with hlp
  have hne_root : root ++ [k] ≠ lp := by
    intro h
    rw [← h] at hL
    rw [hdir] at hL
    simp at hL
  have hlp_nil : lp ≠ [] := by
    intro h
    rw [h] at hL hparent
    simp only [List.dropLast_nil] at hparent
    rw [hL] at hparent
    simp at hparent
  have hdrop_ne : lp.dropLast ≠ lp := by
    intro h
    have hlen := congrArg List.length h
    rw [List.length_dropLast] at hlen
    have h0 : lp.length ≠ 0 := fun h0 => hlp_nil (List.length_eq_zero.mp h0)
    omega
  have hk' : (List.getLast? t).getD "" = k := by simpa using hk
  have hisdir : isdir fs (root ++ [k]) = true := by
    simp [isdir, resolve1, hdir]
  have hpe : pathExists (removePath fs lp) lp = false := by
    simp [pathExists, resolve1, lookupFS_removePath_self, hlp_nil]
  have hpd : isdir (removePath fs lp) lp.dropLast = true := by
    have hub := lookupFS_removePath_ne fs lp lp.dropLast hdrop_ne
    simp [isdir, resolve1, hub, hparent]
  have h1 : fix_link root cwd fs arg
      = .ok (removePath fs lp ++ [(lp, .link (root ++ [k]))], none) := by
    simp [fix_link, ← hlp, hL, hk', hisdir, hpe, hpd]
  have hLX : lookupFS (removePath fs lp ++ [(lp, .link (root ++ [k]))]) lp
      = some (.link (root ++ [k])) := by
    rw [lookupFS_append, lookupFS_removePath_self]
    simp [lookupFS]
  have hdirX : lookupFS (removePath fs lp ++ [(lp, .link (root ++ [k]))]) (root ++ [k])
      = some .dir := by
    rw [lookupFS_append, lookupFS_removePath_ne fs lp (root ++ [k]) hne_root, hdir]
  have hisdirX : isdir (removePath fs lp ++ [(lp, .link (root ++ [k]))]) (root ++ [k])
      = true := by
    simp [isdir, resolve1, hdirX]
  have hrem : removePath (removePath fs lp ++ [(lp, .link (root ++ [k]))]) lp
      = removePath fs lp := by
    rw [removePath_append, removePath_idem, removePath_single_self, List.append_nil]
  have h2 : fix_link root cwd (removePath fs lp ++ [(lp, .link (root ++ [k]))]) arg
      = .ok (removePath fs lp ++ [(lp, .link (root ++ [k]))], none) := by
    simp [fix_link, ← hlp, hLX, List.getLastD_concat, hisdirX, hrem, hpe, hpd]
  exact ⟨removePath fs lp ++ [(lp, .link (root ++ [k]))], h1, h2, hLX⟩

/-- C8 (witness): the idempotence applied to the concrete valid link
`/home/paper`, whose target key `k` is present in the archive. -/
theorem fix_link_idempotent_on_valid_witness :
    ∃ fs₁ : FS,
      fix_link ["lib", "archive"] ["home"] fsValidLink ⟨true, ["home", "paper"]⟩
        = .ok (fs₁, none) ∧
      fix_link ["lib", "archive"] ["home"] fs₁ ⟨true, ["home", "paper"]⟩
        = .ok (fs₁, none) ∧
      lookupFS fs₁ (resolveP ["home"] ⟨true, ["home", "paper"]⟩)
        = some (.link (["lib", "archive"] ++ ["k"])) :=
  fix_link_idempotent_on_valid ["lib", "archive"] ["home"] fsValidLink
    ⟨true, ["home", "paper"]⟩ ["lib", "archive", "k"] "k" rfl rfl rfl rfl
